import Mathlib

/-!
Shallow embedding of the Enhanced Saros DLMM client example
(`examples/rust-dlmm-enhanced.rs`).

Modelling conventions:
- Rust `f64` amounts are modelled as exact rationals (`ℚ`).
- Rust `Result<T, Box<dyn Error>>` becomes `Except String T`
  (every error constructed in the source is a message string).
- The async methods suspend only at simulated collaborators, so they
  are modelled as pure functions of the client and the arguments.
- `execute_swap_steps` mirrors the control flow of `execute_swap`
  line by line, recording which pipeline stages are reached.
-/

instance {ε α : Type _} [DecidableEq ε] [DecidableEq α] :
    DecidableEq (Except ε α) := fun a b =>
  match a, b with
  | Except.ok x, Except.ok y =>
    if h : x = y then isTrue (congrArg Except.ok h)
    else isFalse (fun hc => h (Except.ok.inj hc))
  | Except.error x, Except.error y =>
    if h : x = y then isTrue (congrArg Except.error h)
    else isFalse (fun hc => h (Except.error.inj hc))
  | Except.ok _, Except.error _ => isFalse (fun hc => Except.noConfusion hc)
  | Except.error _, Except.ok _ => isFalse (fun hc => Except.noConfusion hc)

/-- DLMM configuration (`DlmmConfig` in the source). -/
structure DlmmConfig where
  network : String
  slippage : ℚ
  deriving DecidableEq

/-- Token information (`Token` in the source). -/
structure Token where
  mint : String
  decimals : Nat
  symbol : String
  deriving DecidableEq

/-- Swap parameters (`SwapParams` in the source). -/
structure SwapParams where
  input_token : String
  output_token : String
  amount : ℚ
  wallet_public_key : String
  deriving DecidableEq

/-- Swap result (`SwapResult` in the source). -/
structure SwapResult where
  success : Bool
  signature : Option String
  error : Option String
  deriving DecidableEq

/-- Quote result (`QuoteResult` in the source). -/
structure QuoteResult where
  input_amount : ℚ
  expected_output : ℚ
  price_impact : ℚ
  fee : ℚ
  deriving DecidableEq

/-- The enhanced DLMM client (`EnhancedSarosDLMM` in the source): it
holds only its configuration. -/
structure EnhancedSarosDLMM where
  config : DlmmConfig
  deriving DecidableEq

/-- `EnhancedSarosDLMM::new`: always succeeds with a client holding the
given configuration. -/
def EnhancedSarosDLMM.new (config : DlmmConfig) :
    Except String EnhancedSarosDLMM :=
  Except.ok { config := config }

/-- `EnhancedSarosDLMM::get_quote`: the simulated quote calculation.
`expected_output = amount * 100.0`,
`price_impact = (amount / 1_000_000.0) * 0.05`,
`fee = amount * 0.003`; always returns `Ok`. -/
def get_quote (_client : EnhancedSarosDLMM) (params : SwapParams) :
    Except String QuoteResult :=
  let expected_output : ℚ := params.amount * 100
  let price_impact : ℚ := (params.amount / 1000000) * (5 / 100)
  let fee : ℚ := params.amount * (3 / 1000)
  Except.ok
    { input_amount := params.amount
      expected_output := expected_output
      price_impact := price_impact
      fee := fee }

/-- `EnhancedSarosDLMM::validate_swap_params`: rejects empty token
identifiers, non-positive amounts, and equal token identifiers, in that
order, each with its own message. -/
def validate_swap_params (_client : EnhancedSarosDLMM)
    (params : SwapParams) : Except String Unit :=
  if params.input_token = "" ∨ params.output_token = "" then
    Except.error "Input and output tokens are required"
  else if params.amount ≤ 0 then
    Except.error "Amount must be positive"
  else if params.input_token = params.output_token then
    Except.error "Input and output tokens must be different"
  else
    Except.ok ()

/-- `EnhancedSarosDLMM::execute_swap`: validate (propagating any
validation error with `?`), then quote (propagating any error with `?`),
then return the simulated successful swap result. -/
def execute_swap (client : EnhancedSarosDLMM) (params : SwapParams) :
    Except String SwapResult :=
  match validate_swap_params client params with
  | Except.error e => Except.error e
  | Except.ok _ =>
    match get_quote client params with
    | Except.error e => Except.error e
    | Except.ok _ =>
      Except.ok
        { success := true
          signature := some "simulated-transaction-signature"
          error := none }

/-- The pipeline stages of `execute_swap`. -/
inductive Step where
  | validation
  | quote
  | submit
  deriving DecidableEq

/-- The stages `execute_swap` actually reaches on a given input,
mirroring its control flow: validation always runs; the quote step runs
only when validation returned `Ok`; the simulated submission runs only
when the quote step returned `Ok`. -/
def execute_swap_steps (client : EnhancedSarosDLMM)
    (params : SwapParams) : List Step :=
  match validate_swap_params client params with
  | Except.error _ => [Step.validation]
  | Except.ok _ =>
    match get_quote client params with
    | Except.error _ => [Step.validation, Step.quote]
    | Except.ok _ => [Step.validation, Step.quote, Step.submit]

/-- `EnhancedSarosDLMM::get_pool_stats`: ignores the pair address and
returns the simulated total liquidity of 2,000,000. -/
def get_pool_stats (_client : EnhancedSarosDLMM)
    (_pair_address : String) : Except String ℚ :=
  Except.ok 2000000

/-- The message attached to the first validation rule that `params`
violates, in the order stated by the spec: (1) `input_token` non-empty,
(2) `output_token` non-empty, (3) `amount > 0`,
(4) `input_token ≠ output_token`. Rules 1 and 2 carry the same message
in the source. Spec-side reference definition for comparison with
`validate_swap_params`. -/
def first_violation_spec (params : SwapParams) : Option String :=
  if params.input_token = "" then
    some "Input and output tokens are required"
  else if params.output_token = "" then
    some "Input and output tokens are required"
  else if params.amount ≤ 0 then
    some "Amount must be positive"
  else if params.input_token = params.output_token then
    some "Input and output tokens must be different"
  else
    none

/-- Spec-side reference validator: fail with the message of the first
violated rule, succeed when no rule is violated. -/
def validate_spec (params : SwapParams) : Except String Unit :=
  match first_violation_spec params with
  | some m => Except.error m
  | none => Except.ok ()

/-- The configuration built in the example driver (`main`). -/
def demo_config : DlmmConfig :=
  { network := "mainnet-beta", slippage := 1 / 2 }

/-- The client built in the example driver. -/
def demo_client : EnhancedSarosDLMM :=
  { config := demo_config }

/-- The SOL→USDC swap request of the end-to-end scenarios, with
amount 1. -/
def sol_usdc_one : SwapParams :=
  { input_token := "SOL"
    output_token := "USDC"
    amount := 1
    wallet_public_key := "W" }

/-- The SOL→USDC swap request with amount 0 (end-to-end scenario 2). -/
def sol_usdc_zero : SwapParams :=
  { input_token := "SOL"
    output_token := "USDC"
    amount := 0
    wallet_public_key := "W" }

/-- A swap request whose input token identifier is empty. -/
def empty_input_params : SwapParams :=
  { input_token := ""
    output_token := "USDC"
    amount := 1
    wallet_public_key := "W" }

/-- The fixed result `execute_swap` builds on its success path
(the simulated swap in the source). -/
def simulated_success_result : SwapResult :=
  { success := true
    signature := some "simulated-transaction-signature"
    error := none }

theorem execute_swap_of_validate_ok (client : EnhancedSarosDLMM) (p : SwapParams)
    (h : validate_swap_params client p = Except.ok ()) :
    execute_swap client p = Except.ok simulated_success_result := by
  simp [execute_swap, h, get_quote, simulated_success_result]

theorem execute_swap_of_validate_error (client : EnhancedSarosDLMM) (p : SwapParams)
    (m : String) (h : validate_swap_params client p = Except.error m) :
    execute_swap client p = Except.error m := by
  simp [execute_swap, h]

theorem execute_swap_steps_of_validate_error (client : EnhancedSarosDLMM)
    (p : SwapParams) (m : String)
    (h : validate_swap_params client p = Except.error m) :
    execute_swap_steps client p = [Step.validation] := by
  simp [execute_swap_steps, h]

theorem validate_error_ne_empty (client : EnhancedSarosDLMM) (p : SwapParams)
    (m : String) (h : validate_swap_params client p = Except.error m) :
    m ≠ "" := by
  revert h
  unfold validate_swap_params
  split_ifs <;> intro h
  · cases Except.error.inj h; decide
  · cases Except.error.inj h; decide
  · cases Except.error.inj h; decide
  · exact absurd h (by simp)

/-- Claim C1, counterexample: on the scenario-2 input (amount 0),
`execute_swap` does not return a `SwapResult` with `success := false` at
all — it propagates the validation failure as the `Err` branch of its
`Result`, so the call evaluates to `Except.error "Amount must be
positive"` rather than to `Except.ok` of any `SwapResult`. -/
theorem C1_counterexample :
    execute_swap demo_client sol_usdc_zero =
      Except.error "Amount must be positive" := by
  decide

/-- Claim C1, amended: for every `SwapParams` that fails validation,
`execute_swap` returns the `Err` branch carrying the (non-empty)
validation message — not an `Ok` `SwapResult` — and it does so without
reaching the quote step or the transaction-submission step. -/
theorem C1_validation_failure_short_circuits (client : EnhancedSarosDLMM)
    (p : SwapParams) (h : validate_swap_params client p ≠ Except.ok ()) :
    (∃ msg, msg ≠ "" ∧ validate_swap_params client p = Except.error msg ∧
      execute_swap client p = Except.error msg) ∧
    execute_swap_steps client p = [Step.validation] ∧
    Step.quote ∉ execute_swap_steps client p ∧
    Step.submit ∉ execute_swap_steps client p := by
  cases hv : validate_swap_params client p with
  | ok u => cases u; exact absurd hv h
  | error m =>
    have hs := execute_swap_steps_of_validate_error client p m hv
    refine ⟨⟨m, validate_error_ne_empty client p m hv, rfl,
      execute_swap_of_validate_error client p m hv⟩, hs, ?_, ?_⟩ <;>
      simp [hs]

/-- Claim C1, witness: the scenario-2 input (amount 0) fails validation,
and `execute_swap` on it yields the error "Amount must be positive"
having run only the validation stage. -/
theorem C1_validation_failure_short_circuits_witness :
    validate_swap_params demo_client sol_usdc_zero ≠ Except.ok () ∧
    ((∃ msg, msg ≠ "" ∧
        validate_swap_params demo_client sol_usdc_zero = Except.error msg ∧
        execute_swap demo_client sol_usdc_zero = Except.error msg) ∧
      execute_swap_steps demo_client sol_usdc_zero = [Step.validation] ∧
      Step.quote ∉ execute_swap_steps demo_client sol_usdc_zero ∧
      Step.submit ∉ execute_swap_steps demo_client sol_usdc_zero) :=
  ⟨by decide, C1_validation_failure_short_circuits demo_client sol_usdc_zero
    (by decide)⟩

/-- Claim C2, counterexample: at amount 1 the quote's price impact is
`(1 / 1_000_000) * 0.05 = 0.00000005`, not the `0.00005` stated in the
claim's scenario. -/
theorem C2_counterexample :
    get_quote demo_client sol_usdc_one =
      Except.ok
        { input_amount := 1
          expected_output := 100
          price_impact := 5 / 100000000
          fee := 3 / 1000 } ∧
    (5 / 100000000 : ℚ) ≠ (5 / 100000 : ℚ) := by
  constructor
  · simp [get_quote, sol_usdc_one]
    norm_num
  · norm_num

/-- Claim C2, amended: for every `SwapParams` with positive amount,
`get_quote` returns `Ok` with `input_amount = amount`,
`expected_output = amount * 100`,
`price_impact = (amount / 1_000_000) * 0.05` and `fee = amount * 0.003`;
in particular for amount 1 the quote is
`{input 1, output 100, impact 0.00000005, fee 0.003}`. -/
theorem C2_quote_formula (client : EnhancedSarosDLMM) (p : SwapParams)
    (h : 0 < p.amount) :
    get_quote client p =
      Except.ok
        { input_amount := p.amount
          expected_output := p.amount * 100
          price_impact := (p.amount / 1000000) * (5 / 100)
          fee := p.amount * (3 / 1000) } ∧
    (p.amount = 1 →
      get_quote client p =
        Except.ok
          { input_amount := 1
            expected_output := 100
            price_impact := 5 / 100000000
            fee := 3 / 1000 }) := by
  constructor
  · rfl
  · intro ha
    simp only [get_quote, ha, Except.ok.injEq, QuoteResult.mk.injEq]
    norm_num

/-- Claim C2, witness: the quote formula instantiated at the scenario-1
input (SOL→USDC, amount 1). -/
theorem C2_quote_formula_witness :
    0 < sol_usdc_one.amount ∧
    (get_quote demo_client sol_usdc_one =
      Except.ok
        { input_amount := sol_usdc_one.amount
          expected_output := sol_usdc_one.amount * 100
          price_impact := (sol_usdc_one.amount / 1000000) * (5 / 100)
          fee := sol_usdc_one.amount * (3 / 1000) } ∧
    (sol_usdc_one.amount = 1 →
      get_quote demo_client sol_usdc_one =
        Except.ok
          { input_amount := 1
            expected_output := 100
            price_impact := 5 / 100000000
            fee := 3 / 1000 })) :=
  ⟨by norm_num [sol_usdc_one],
    C2_quote_formula demo_client sol_usdc_one (by norm_num [sol_usdc_one])⟩

/-- Claim C3: `validate_swap_params` agrees everywhere with the
spec-side validator that reports the message of the first violated rule
in the order (1) input token non-empty, (2) output token non-empty,
(3) amount positive, (4) tokens distinct; moreover it fails whenever
either token identifier is empty, and whenever the two tokens are equal,
regardless of amount. -/
theorem C3_validate_first_violated_rule (client : EnhancedSarosDLMM)
    (p : SwapParams) :
    validate_swap_params client p = validate_spec p ∧
    ((p.input_token = "" ∨ p.output_token = "") →
      ∃ m, validate_swap_params client p = Except.error m) ∧
    (p.input_token = p.output_token →
      ∃ m, validate_swap_params client p = Except.error m) := by
  unfold validate_swap_params validate_spec first_violation_spec
  by_cases h1 : p.input_token = "" <;>
  by_cases h2 : p.output_token = "" <;>
  by_cases h3 : p.amount ≤ 0 <;>
  by_cases h4 : p.input_token = p.output_token <;>
    simp [h1, h2, h3, h4]

/-- Claim C3, witness: on an empty input token (with positive amount and
a distinct output token), validation fails. -/
theorem C3_validate_first_violated_rule_witness :
    ∃ m, validate_swap_params demo_client empty_input_params =
      Except.error m :=
  (C3_validate_first_violated_rule demo_client empty_input_params).2.1
    (Or.inl rfl)

/-- Claim C4: every `SwapResult` that `execute_swap` actually returns has
exactly one of signature/error present: success implies the signature is
present and the error absent, failure would imply the reverse, the two
are never both present, and never both absent. -/
theorem C4_result_exactly_one (client : EnhancedSarosDLMM) (p : SwapParams)
    (r : SwapResult) (h : execute_swap client p = Except.ok r) :
    (r.success = true → r.signature.isSome = true ∧ r.error = none) ∧
    (r.success = false → r.error.isSome = true ∧ r.signature = none) ∧
    ¬(r.signature.isSome = true ∧ r.error.isSome = true) ∧
    (r.signature.isSome = true ∨ r.error.isSome = true) := by
  cases hv : validate_swap_params client p with
  | error m =>
    rw [execute_swap_of_validate_error client p m hv] at h
    exact Except.noConfusion h
  | ok u =>
    cases u
    rw [execute_swap_of_validate_ok client p hv] at h
    cases Except.ok.inj h
    simp [simulated_success_result]

/-- Claim C4, witness: the invariant instantiated at the result
`execute_swap` returns on the valid scenario-1 input. -/
theorem C4_result_exactly_one_witness :
    execute_swap demo_client sol_usdc_one =
      Except.ok simulated_success_result ∧
    ((simulated_success_result.success = true →
        simulated_success_result.signature.isSome = true ∧
        simulated_success_result.error = none) ∧
      (simulated_success_result.success = false →
        simulated_success_result.error.isSome = true ∧
        simulated_success_result.signature = none) ∧
      ¬(simulated_success_result.signature.isSome = true ∧
        simulated_success_result.error.isSome = true) ∧
      (simulated_success_result.signature.isSome = true ∨
        simulated_success_result.error.isSome = true)) :=
  ⟨by decide, C4_result_exactly_one demo_client sol_usdc_one
    simulated_success_result (by decide)⟩

/-- Claim C5: for every `SwapParams` that passes validation,
`execute_swap` returns `Ok` with the fixed result `{success := true,
signature := some "simulated-transaction-signature", error := none}`,
independent of the params and the client configuration. -/
theorem C5_success_path_fixed_signature (client : EnhancedSarosDLMM)
    (p : SwapParams) (h : validate_swap_params client p = Except.ok ()) :
    execute_swap client p =
      Except.ok
        { success := true
          signature := some "simulated-transaction-signature"
          error := none } :=
  execute_swap_of_validate_ok client p h

/-- Claim C5, witness: the scenario-1 input passes validation and the
swap returns the fixed simulated signature. -/
theorem C5_success_path_fixed_signature_witness :
    validate_swap_params demo_client sol_usdc_one = Except.ok () ∧
    execute_swap demo_client sol_usdc_one =
      Except.ok
        { success := true
          signature := some "simulated-transaction-signature"
          error := none } :=
  ⟨by decide, C5_success_path_fixed_signature demo_client sol_usdc_one
    (by decide)⟩

/-- Claim C6: `get_quote` has no failure path — on any validated input
(amount positive) it returns `Ok` with a fully-populated `QuoteResult`
whose four fields are all non-negative. -/
theorem C6_quote_total_nonneg (client : EnhancedSarosDLMM) (p : SwapParams)
    (h : 0 < p.amount) :
    ∃ q : QuoteResult, get_quote client p = Except.ok q ∧
      0 ≤ q.input_amount ∧ 0 ≤ q.expected_output ∧
      0 ≤ q.price_impact ∧ 0 ≤ q.fee := by
  have h0 : (0 : ℚ) ≤ p.amount := le_of_lt h
  refine ⟨_, rfl, ?_, ?_, ?_, ?_⟩ <;> simp only [get_quote]
  · exact h0
  · exact mul_nonneg h0 (by norm_num)
  · exact mul_nonneg (div_nonneg h0 (by norm_num)) (by norm_num)
  · exact mul_nonneg h0 (by norm_num)

/-- Claim C6, witness: the non-negativity of the quote at the scenario-1
input. -/
theorem C6_quote_total_nonneg_witness :
    0 < sol_usdc_one.amount ∧
    (∃ q : QuoteResult, get_quote demo_client sol_usdc_one = Except.ok q ∧
      0 ≤ q.input_amount ∧ 0 ≤ q.expected_output ∧
      0 ≤ q.price_impact ∧ 0 ≤ q.fee) :=
  ⟨by norm_num [sol_usdc_one],
    C6_quote_total_nonneg demo_client sol_usdc_one
      (by norm_num [sol_usdc_one])⟩

/-- Claim C7: `get_quote` is deterministic and stateless — any two
clients (any configuration) give field-for-field identical quotes on
identical params, and repeated calls agree. -/
theorem C7_quote_deterministic (c1 c2 : EnhancedSarosDLMM)
    (p : SwapParams) :
    get_quote c1 p = get_quote c2 p ∧ get_quote c1 p = get_quote c1 p :=
  ⟨rfl, rfl⟩

/-- Claim C8: none of the core operations can panic — each is a total
function into a `Result`: `execute_swap` returns `Ok` exactly on
validated input and otherwise surfaces the precondition violation as a
typed error, while `get_quote` and `get_pool_stats` always return
`Ok`, for every possible `SwapParams` and pair address. -/
theorem C8_total_typed_failures (client : EnhancedSarosDLMM)
    (p : SwapParams) (s : String) :
    ((validate_swap_params client p = Except.ok () ∧
        execute_swap client p = Except.ok simulated_success_result) ∨
      (∃ m, validate_swap_params client p = Except.error m ∧
        execute_swap client p = Except.error m)) ∧
    (∃ q, get_quote client p = Except.ok q) ∧
    (∃ v, get_pool_stats client s = Except.ok v) := by
  refine ⟨?_, ⟨_, rfl⟩, ⟨_, rfl⟩⟩
  cases hv : validate_swap_params client p with
  | ok u => cases u; exact Or.inl ⟨rfl, execute_swap_of_validate_ok client p hv⟩
  | error m =>
    exact Or.inr ⟨m, rfl, execute_swap_of_validate_error client p m hv⟩

/-- Claim C9: `get_pool_stats` returns `Ok` with a non-negative
liquidity value for every pair identifier; it never fails. -/
theorem C9_pool_stats_ok_nonneg (client : EnhancedSarosDLMM)
    (pair : String) :
    ∃ v : ℚ, get_pool_stats client pair = Except.ok v ∧ 0 ≤ v :=
  ⟨2000000, rfl, by norm_num⟩

/-- Claim C10: `get_pool_stats` returns exactly 2,000,000 for every pair
address (the empty string included) and every client configuration. -/
theorem C10_pool_stats_constant (client : EnhancedSarosDLMM)
    (pair : String) :
    get_pool_stats client pair = Except.ok 2000000 ∧
    get_pool_stats client "" = Except.ok 2000000 :=
  ⟨rfl, rfl⟩
